import Mathlib

/-!
Shallow embedding of the gomatrix client's synchronization engine and
transport layer (the `Sync` loop, `MakeRequest` and `HandleRetry` functions
of the Go source), together with theorems settling the frozen claims about
them.

Modelling choices:
* Go standard-library pieces that the code calls but does not implement
  (HTTP-date parsing, `strconv.Atoi`, `json.Unmarshal` into `RespError`,
  the wall clock) are abstracted as function parameters collected in
  `TransportCtx`; the code under verification is the branch structure of
  `HandleRetry` and `MakeRequest` themselves.
* The HTTP server is a stream `Nat → HTTPResponse`: the n-th call made by
  a `MakeRequest` invocation chain observes response n.  `MakeRequest` is
  given explicit fuel because its 429 path recurses unboundedly; a result
  of `none` means the computation has not finished within that many calls.
* The `Sync` loop interacts with its collaborators (`Storer`, `Syncer`,
  the homeserver) only through interface calls; we record those calls as
  a trace of `SyncAction`s and drive the loop with a schedule of per
  iteration outcomes (`SyncStep`), one per loop iteration.  Durations and
  event payloads irrelevant to the claims are omitted; of `RespSync` only
  the `NextBatch` field is read by `Sync`, so only it is modelled.
-/

namespace Gomatrix

/-- RespError is the standard JSON error response from homeservers
(fields `errcode` and `error`). -/
structure RespError where
  errCode : String
  err : String
deriving DecidableEq

/-- One HTTP response as observed by `MakeRequest`: its status code, the
value of the `Retry-After` header (the empty string when the header is
absent, as in Go's `Header.Get`), and the raw body bytes (as a string). -/
structure HTTPResponse where
  status : Nat
  retryAfter : String
  body : String
deriving DecidableEq

/-- HTTPError mirrors the Go `HTTPError` struct: raw body contents, a
display message, the HTTP status code, and an optional wrapped
structured error. -/
structure HTTPError where
  contents : String
  message : String
  code : Nat
  wrapped : Option RespError
deriving DecidableEq

/-- Abstraction of the standard-library functions used by the transport:
`parseHTTPDate` models `time.Parse(http.TimeFormat, ·)` returning an
absolute time in nanoseconds, `atoi` models `strconv.Atoi`, `now` is the
current time in nanoseconds (so `time.Until t = t - now`), and
`unmarshalRespError` models `json.Unmarshal` into a `RespError`, which in
the Go code leaves the zero value on parse failure (the error is ignored
and only `ErrCode != ""` is checked). -/
structure TransportCtx where
  parseHTTPDate : String → Option Int
  atoi : String → Option Int
  now : Int
  unmarshalRespError : String → RespError

/-- The `sleep` variable of `MakeRequest`: 5000000000 ns (5 seconds). -/
def defaultSleep : Int := 5000000000

/-- HandleRetry: reads the `Retry-After` header value; when absent returns
the caller-supplied duration; otherwise tries HTTP-date parsing (returning
`time.Until t`), then integer seconds, and errors when neither parses. -/
def HandleRetry (ctx : TransportCtx) (retryAfter : String) (duration : Int) :
    Except String Int :=
  if retryAfter = "" then
    .ok duration
  else
    match ctx.parseHTTPDate retryAfter with
    | some t => .ok (t - ctx.now)
    | none =>
      match ctx.atoi retryAfter with
      | some seconds => .ok (seconds * 1000000000)
      | none => .error "invalid retry-after data"

/-- The possible outcomes of one `MakeRequest` invocation:
`decodedBody b` models falling through to
`json.NewDecoder(res.Body).Decode(&resBody)` on the response whose body is
`b` (the returned error and the filled result both come from that body);
`okNoBody` models `return nil` when `resBody` is nil; `httpErr e` models
returning the `HTTPError` value `e`; `retryErr msg` models returning the
error produced by `HandleRetry`. -/
inductive ReqResult
  | decodedBody (body : String)
  | okNoBody
  | httpErr (e : HTTPError)
  | retryErr (msg : String)
deriving DecidableEq

/-- MakeRequest, fuel-indexed.  `idx` is the index of the next response the
server will give; each recursive 429 retry consumes the next response.
Returns `none` when the fuel runs out before the call chain completes
(the real function is still running), otherwise `some (result, calls,
sleeps)` where `calls` counts HTTP round trips made and `sleeps` lists the
`time.Sleep` durations performed, in order.  On a 429 the Go code sleeps,
re-invokes itself, DISCARDS the recursive call's return value, and falls
through to decode the original 429 response's body. -/
def MakeRequest (ctx : TransportCtx) (server : Nat → HTTPResponse)
    (method urlPath : String) (hasResBody : Bool) (idx : Nat) :
    Nat → Option (ReqResult × Nat × List Int)
  | 0 => none
  | fuel + 1 =>
    let res := server idx
    if res.status = 429 then
      match HandleRetry ctx res.retryAfter defaultSleep with
      | .error msg => some (.retryErr msg, 1, [])
      | .ok dur =>
        match MakeRequest ctx server method urlPath hasResBody (idx + 1) fuel with
        | none => none
        | some (_, calls, sleeps) =>
          if hasResBody then
            some (.decodedBody res.body, calls + 1, dur :: sleeps)
          else
            some (.okNoBody, calls + 1, dur :: sleeps)
    else if res.status / 100 ≠ 2 then
      let contents := res.body
      let respErr := ctx.unmarshalRespError contents
      let wrap : Option RespError :=
        if respErr.errCode ≠ "" then some respErr else none
      let msg0 := "Failed to " ++ method ++ " JSON to " ++ urlPath
      let msg := if wrap = none then msg0 ++ ": " ++ contents else msg0
      some (.httpErr ⟨contents, msg, res.status, wrap⟩, 1, [])
    else
      if hasResBody then
        some (.decodedBody res.body, 1, [])
      else
        some (.okNoBody, 1, [])

/-- Of the `RespSync` JSON response, `Sync` itself reads only the
`next_batch` field; the event partitions are passed opaquely to
`ProcessResponse` and are not modelled here. -/
structure RespSync where
  nextBatch : String
deriving DecidableEq

/-- The calls the sync loop makes to its collaborators, in order:
`syncRequest since filterID` is the long-poll `SyncRequest` call;
`onFailedSync` is the recovery hook; `sleep` is the backoff sleep after a
non-fatal failure; `saveNextBatch tok` persists the cursor;
`processResponse resp since` hands the snapshot to
`Syncer.ProcessResponse`; the first three constructors are the filter
negotiation calls made before the loop. -/
inductive SyncAction
  | getFilterJSON
  | createFilter (filterJSON : String)
  | saveFilterID (filterID : String)
  | syncRequest (since filterID : String)
  | onFailedSync
  | sleep
  | saveNextBatch (token : String)
  | processResponse (resp : RespSync) (since : String)
deriving DecidableEq

/-- The externally-determined outcome of one loop iteration:
`failed hookFatal` means `SyncRequest` returned an error and
`OnFailedSync` returned an error (`hookFatal = true`) or a backoff
duration (`hookFatal = false`); `ok resp curID processFatal` means
`SyncRequest` returned snapshot `resp`, `getSyncingID()` read `curID` at
the generation check, and `ProcessResponse` would return an error iff
`processFatal`. -/
inductive SyncStep
  | failed (hookFatal : Bool)
  | ok (resp : RespSync) (curID : Nat) (processFatal : Bool)
deriving DecidableEq

/-- How a (fuel-bounded) run of the sync loop ended: `running` when the
schedule was exhausted with the loop still going, `retNil` for the
`return nil` of the superseded path, `retErr` for an error return. -/
inductive SyncResult
  | running
  | retNil
  | retErr
deriving DecidableEq

/-- The `for` loop of `Sync` (source lines 132-159).  `syncingID` is the
generation captured at start; `filterID` and `nextBatch` are the loop's
variables; the schedule drives one constructor per iteration.  Produces
the trace of collaborator calls and how the loop ended. -/
def syncLoop (syncingID : Nat) (filterID : String) (nextBatch : String) :
    List SyncStep → List SyncAction × SyncResult
  | [] => ([], .running)
  | step :: rest =>
    match step with
    | .failed hookFatal =>
      if hookFatal then
        ([.syncRequest nextBatch filterID, .onFailedSync], .retErr)
      else
        let p := syncLoop syncingID filterID nextBatch rest
        (.syncRequest nextBatch filterID :: .onFailedSync :: .sleep :: p.1, p.2)
    | .ok resp curID processFatal =>
      if curID ≠ syncingID then
        ([.syncRequest nextBatch filterID], .retNil)
      else if processFatal then
        ([.syncRequest nextBatch filterID, .saveNextBatch resp.nextBatch,
          .processResponse resp nextBatch], .retErr)
      else
        let p := syncLoop syncingID filterID resp.nextBatch rest
        (.syncRequest nextBatch filterID :: .saveNextBatch resp.nextBatch ::
          .processResponse resp nextBatch :: p.1, p.2)

/-- Result of the `CreateFilter` HTTP call when `Sync` performs filter
negotiation: an error, or a response carrying the new filter id. -/
inductive FilterCreateResult
  | err
  | ok (filterID : String)
deriving DecidableEq

/-- The environment of one `Sync` invocation: what `LoadNextBatch` and
`LoadFilterID` return for the identity, the filter JSON the `Syncer`
supplies, the outcome of the `CreateFilter` call were it made, and the
schedule of loop-iteration outcomes. -/
structure SyncEnv where
  storedNextBatch : String
  storedFilterID : String
  filterJSON : String
  createFilterResult : FilterCreateResult
  steps : List SyncStep

/-- Sync (source lines 115-160): after capturing the generation
(`syncingID`), loads the cursor and filter id; when no filter id is
persisted it obtains the filter JSON, creates the filter server-side
(returning the error on failure, before any long-poll), persists the
returned id, and then runs the loop. -/
def Sync (syncingID : Nat) (env : SyncEnv) : List SyncAction × SyncResult :=
  if env.storedFilterID = "" then
    match env.createFilterResult with
    | .err => ([.getFilterJSON, .createFilter env.filterJSON], .retErr)
    | .ok fid =>
      let p := syncLoop syncingID fid env.storedNextBatch env.steps
      (.getFilterJSON :: .createFilter env.filterJSON :: .saveFilterID fid :: p.1, p.2)
  else
    syncLoop syncingID env.storedFilterID env.storedNextBatch env.steps

/-- Trace checker for claim C1: scanning left to right while accumulating
the set of cursors already passed to `SaveNextBatch`, every
`processResponse` action must dispatch a snapshot whose cursor was
persisted strictly earlier in the trace. -/
def dispatchAfterPersist (saved : List String) : List SyncAction → Bool
  | [] => true
  | .saveNextBatch t :: rest => dispatchAfterPersist (t :: saved) rest
  | .processResponse resp _ :: rest =>
    saved.contains resp.nextBatch && dispatchAfterPersist saved rest
  | _ :: rest => dispatchAfterPersist saved rest

/-- Trace checker for claim C4: tracking the most recently persisted
cursor, every `syncRequest` issued after some cursor has been persisted
must use exactly that cursor as its `since` value. -/
def sinceMatchesPersisted (last : Option String) : List SyncAction → Bool
  | [] => true
  | .saveNextBatch t :: rest => sinceMatchesPersisted (some t) rest
  | .syncRequest s _ :: rest =>
    (match last with
     | some t => s == t
     | none => true) && sinceMatchesPersisted last rest
  | _ :: rest => sinceMatchesPersisted last rest

/-- Trace checker for claim C8: the trace contains no filter negotiation
action (`getFilterJSON`, `createFilter`, `saveFilterID`) and every
long-poll uses exactly the filter id `fid`. -/
def usesFilterOnly (fid : String) : List SyncAction → Bool
  | [] => true
  | .getFilterJSON :: _ => false
  | .createFilter _ :: _ => false
  | .saveFilterID _ :: _ => false
  | .syncRequest _ f :: rest => f == fid && usesFilterOnly fid rest
  | _ :: rest => usesFilterOnly fid rest

/-- A concrete transport context used by the concrete-input theorems:
the string "date" parses as an HTTP-date for absolute time 42 ns, the
string "7" parses as the integer 7, the clock reads 10 ns, and no body
unmarshals to a structured error. -/
def ctxSample : TransportCtx :=
  ⟨fun s => if s = "date" then some 42 else none,
   fun s => if s = "7" then some 7 else none,
   10,
   fun _ => ⟨"", ""⟩⟩

/-- A server that answers 429 without a Retry-After header twice, then
200. -/
def serverTwo429 : Nat → HTTPResponse :=
  fun i => if i < 2 then ⟨429, "", "busy"⟩ else ⟨200, "", "okbody"⟩

/-- A server that persistently answers 429 without a Retry-After
header. -/
def server429 : Nat → HTTPResponse :=
  fun _ => ⟨429, "", "busy"⟩

/-- A server that answers 429 with a Retry-After header that parses
neither as an HTTP-date nor as an integer. -/
def server429Bad : Nat → HTTPResponse :=
  fun _ => ⟨429, "soon", "busy"⟩

/-- A server that answers a plain 500 whose body is not a structured API
error. -/
def server500 : Nat → HTTPResponse :=
  fun _ => ⟨500, "", "bad gateway"⟩

/-! Helper lemmas about the loop traces, shared between the claim
theorems. -/

theorem syncLoop_dispatchAfterPersist (syncingID : Nat) (filterID : String)
    (steps : List SyncStep) :
    ∀ (nextBatch : String) (saved : List String),
      dispatchAfterPersist saved (syncLoop syncingID filterID nextBatch steps).1
        = true := by
  induction steps with
  | nil => intro nextBatch saved; rfl
  | cons step rest ih =>
    intro nextBatch saved
    cases step with
    | failed hookFatal =>
      cases hookFatal with
      | true => rfl
      | false => simp [syncLoop, dispatchAfterPersist, ih]
    | ok resp curID processFatal =>
      by_cases hgen : curID = syncingID
      · cases processFatal with
        | true => simp [syncLoop, hgen, dispatchAfterPersist]
        | false => simp [syncLoop, hgen, dispatchAfterPersist, ih]
      · simp [syncLoop, hgen, dispatchAfterPersist]

theorem syncLoop_sinceMatchesPersisted (syncingID : Nat) (filterID : String)
    (steps : List SyncStep) :
    ∀ (nextBatch : String) (last : Option String),
      (last = none ∨ last = some nextBatch) →
      sinceMatchesPersisted last (syncLoop syncingID filterID nextBatch steps).1
        = true := by
  induction steps with
  | nil => intro nextBatch last _; rfl
  | cons step rest ih =>
    intro nextBatch last hlast
    cases step with
    | failed hookFatal =>
      cases hookFatal with
      | true =>
        rcases hlast with h | h <;> subst h <;>
          simp [syncLoop, sinceMatchesPersisted]
      | false =>
        rcases hlast with h | h <;> subst h <;>
          simp [syncLoop, sinceMatchesPersisted, ih nextBatch none (Or.inl rfl),
            ih nextBatch (some nextBatch) (Or.inr rfl)]
    | ok resp curID processFatal =>
      by_cases hgen : curID = syncingID
      · cases processFatal with
        | true =>
          rcases hlast with h | h <;> subst h <;>
            simp [syncLoop, hgen, sinceMatchesPersisted]
        | false =>
          rcases hlast with h | h <;> subst h <;>
            simp [syncLoop, hgen, sinceMatchesPersisted,
              ih resp.nextBatch (some resp.nextBatch) (Or.inr rfl)]
      · rcases hlast with h | h <;> subst h <;>
          simp [syncLoop, hgen, sinceMatchesPersisted]

theorem syncLoop_usesFilterOnly (syncingID : Nat) (filterID : String)
    (steps : List SyncStep) :
    ∀ (nextBatch : String),
      usesFilterOnly filterID (syncLoop syncingID filterID nextBatch steps).1
        = true := by
  induction steps with
  | nil => intro nextBatch; rfl
  | cons step rest ih =>
    intro nextBatch
    cases step with
    | failed hookFatal =>
      cases hookFatal with
      | true => simp [syncLoop, usesFilterOnly]
      | false => simp [syncLoop, usesFilterOnly, ih]
    | ok resp curID processFatal =>
      by_cases hgen : curID = syncingID
      · cases processFatal with
        | true => simp [syncLoop, hgen, usesFilterOnly]
        | false => simp [syncLoop, hgen, usesFilterOnly, ih]
      · simp [syncLoop, hgen, usesFilterOnly]

/-! The claims about the sync loop. -/

/-- C1: in every run of `Sync`, whenever a snapshot passes the generation
check and is dispatched via `ProcessResponse`, its cursor has already been
persisted via `SaveNextBatch` strictly earlier in the trace; the loop
never dispatches a snapshot whose cursor has not been persisted. -/
theorem C1_cursor_persisted_before_dispatch (syncingID : Nat) (env : SyncEnv) :
    dispatchAfterPersist [] (Sync syncingID env).1 = true := by
  unfold Sync
  by_cases hfid : env.storedFilterID = ""
  · cases hcr : env.createFilterResult with
    | err => simp [hfid, hcr, dispatchAfterPersist]
    | ok fid =>
      simp [hfid, hcr, dispatchAfterPersist, syncLoop_dispatchAfterPersist]
  · simp [hfid, syncLoop_dispatchAfterPersist]

/-- C2: at any iteration where the long-poll succeeded but the current
generation no longer equals the captured one, the loop performs only the
long-poll call of that iteration — no `SaveNextBatch`, no
`ProcessResponse` — and returns nil (`retNil`), regardless of what the
rest of the schedule would have held. -/
theorem C2_superseded_returns_nil_without_persist (syncingID : Nat)
    (filterID nextBatch : String) (resp : RespSync) (curID : Nat)
    (processFatal : Bool) (rest : List SyncStep)
    (h : curID ≠ syncingID) :
    syncLoop syncingID filterID nextBatch
        (SyncStep.ok resp curID processFatal :: rest)
      = ([SyncAction.syncRequest nextBatch filterID], SyncResult.retNil) := by
  simp [syncLoop, h]

/-- Witness for C2 at a concrete stale iteration. -/
theorem C2_superseded_witness :
    syncLoop 1 "f" "s0" [SyncStep.ok ⟨"s1"⟩ 2 false] =
      ([SyncAction.syncRequest "s0" "f"], SyncResult.retNil) :=
  C2_superseded_returns_nil_without_persist 1 "f" "s0" ⟨"s1"⟩ 2 false []
    (by decide)

/-- C4: in every run of `Sync`, once some cursor has been persisted via
`SaveNextBatch`, every subsequent long-poll call uses exactly the most
recently persisted cursor as its `since` value; in particular the cursor
persisted after a successful iteration is the `since` of the next
long-poll. -/
theorem C4_persisted_cursor_is_next_since (syncingID : Nat) (env : SyncEnv) :
    sinceMatchesPersisted none (Sync syncingID env).1 = true := by
  unfold Sync
  by_cases hfid : env.storedFilterID = ""
  · cases hcr : env.createFilterResult with
    | err => simp [hfid, hcr, sinceMatchesPersisted]
    | ok fid =>
      simp [hfid, hcr, sinceMatchesPersisted,
        syncLoop_sinceMatchesPersisted syncingID fid env.steps
          env.storedNextBatch none (Or.inl rfl)]
  · simp [hfid,
      syncLoop_sinceMatchesPersisted syncingID env.storedFilterID env.steps
        env.storedNextBatch none (Or.inl rfl)]

/-- C5: when no filter id is persisted, `Sync` asks the `Syncer` for the
filter JSON and creates the filter server-side; if creation fails it
returns the error having issued no long-poll call at all, and on success
the returned filter id is persisted via `SaveFilterID` before the first
loop action. -/
theorem C5_filter_negotiation (syncingID : Nat) (env : SyncEnv)
    (h : env.storedFilterID = "") :
    (env.createFilterResult = FilterCreateResult.err →
      Sync syncingID env =
        ([SyncAction.getFilterJSON, SyncAction.createFilter env.filterJSON],
          SyncResult.retErr) ∧
      ∀ s f, SyncAction.syncRequest s f ∉ (Sync syncingID env).1) ∧
    (∀ fid, env.createFilterResult = FilterCreateResult.ok fid →
      (Sync syncingID env).1 =
        SyncAction.getFilterJSON :: SyncAction.createFilter env.filterJSON ::
          SyncAction.saveFilterID fid ::
          (syncLoop syncingID fid env.storedNextBatch env.steps).1 ∧
      (Sync syncingID env).2 =
        (syncLoop syncingID fid env.storedNextBatch env.steps).2) := by
  constructor
  · intro hcr
    constructor
    · simp [Sync, h, hcr]
    · intro s f
      simp [Sync, h, hcr]
  · intro fid hcr
    constructor <;> simp [Sync, h, hcr]

/-- Witness for C5 at a concrete environment with successful creation. -/
theorem C5_filter_negotiation_witness :
    (Sync 1 ⟨"", "", "fj", FilterCreateResult.ok "f1", []⟩).1 =
      SyncAction.getFilterJSON :: SyncAction.createFilter "fj" ::
        SyncAction.saveFilterID "f1" :: (syncLoop 1 "f1" "" []).1 ∧
    (Sync 1 ⟨"", "", "fj", FilterCreateResult.ok "f1", []⟩).2 =
      (syncLoop 1 "f1" "" []).2 :=
  (C5_filter_negotiation 1 ⟨"", "", "fj", FilterCreateResult.ok "f1", []⟩
    rfl).2 "f1" rfl

/-- C8: when a non-empty filter id is already persisted, `Sync` performs
no `GetFilterJSON`, no `CreateFilter` and no `SaveFilterID`, and the loop
uses the stored id unchanged in every long-poll. -/
theorem C8_filter_negotiation_idempotent (syncingID : Nat) (env : SyncEnv)
    (h : env.storedFilterID ≠ "") :
    Sync syncingID env =
      syncLoop syncingID env.storedFilterID env.storedNextBatch env.steps ∧
    usesFilterOnly env.storedFilterID (Sync syncingID env).1 = true := by
  have h1 : Sync syncingID env =
      syncLoop syncingID env.storedFilterID env.storedNextBatch env.steps := by
    simp [Sync, h]
  refine ⟨h1, ?_⟩
  rw [h1]
  exact syncLoop_usesFilterOnly syncingID env.storedFilterID env.steps
    env.storedNextBatch

/-- Witness for C8 at a concrete environment with a stored filter id. -/
theorem C8_filter_negotiation_idempotent_witness :
    Sync 1 ⟨"s0", "fstored", "fj", FilterCreateResult.err,
        [SyncStep.failed true]⟩ =
      syncLoop 1 "fstored" "s0" [SyncStep.failed true] ∧
    usesFilterOnly "fstored"
      (Sync 1 ⟨"s0", "fstored", "fj", FilterCreateResult.err,
        [SyncStep.failed true]⟩).1 = true :=
  C8_filter_negotiation_idempotent 1
    ⟨"s0", "fstored", "fj", FilterCreateResult.err, [SyncStep.failed true]⟩
    (by decide)

/-! The claims about the transport (`MakeRequest` and `HandleRetry`). -/

/-- C7: on a 429 the backoff duration comes from `HandleRetry`, which
tries HTTP-date parsing first (yielding `time.Until` of the parsed date),
falls back to integer seconds, and when the header is absent returns the
caller-supplied duration — which `MakeRequest` fixes to `defaultSleep`,
i.e. 5 seconds. -/
theorem C7_backoff_computation (ctx : TransportCtx) (ra : String) (t n : Int)
    (hra : ra ≠ "") :
    (HandleRetry ctx "" defaultSleep = .ok defaultSleep ∧
      defaultSleep = 5000000000) ∧
    (ctx.parseHTTPDate ra = some t →
      HandleRetry ctx ra defaultSleep = .ok (t - ctx.now)) ∧
    (ctx.parseHTTPDate ra = none → ctx.atoi ra = some n →
      HandleRetry ctx ra defaultSleep = .ok (n * 1000000000)) := by
  refine ⟨⟨rfl, rfl⟩, ?_, ?_⟩
  · intro hd
    simp [HandleRetry, hra, hd]
  · intro hd hi
    simp [HandleRetry, hra, hd, hi]

/-- Witness for C7 at the sample context and the header value "7". -/
theorem C7_backoff_computation_witness :
    (HandleRetry ctxSample "" defaultSleep = .ok defaultSleep ∧
      defaultSleep = 5000000000) ∧
    (ctxSample.parseHTTPDate "7" = some 0 →
      HandleRetry ctxSample "7" defaultSleep = .ok (0 - ctxSample.now)) ∧
    (ctxSample.parseHTTPDate "7" = none → ctxSample.atoi "7" = some 7 →
      HandleRetry ctxSample "7" defaultSleep = .ok (7 * 1000000000)) :=
  C7_backoff_computation ctxSample "7" 0 7 (by decide)

/-- C6: on any non-2xx, non-429 response, `MakeRequest` returns (after a
single HTTP call, with no sleep) an `HTTPError` carrying the raw status
code and the raw body; when the body unmarshals to a `RespError` with a
non-empty errcode that error is wrapped, and otherwise the raw body text
is appended to the display message. -/
theorem C6_http_error_structure (ctx : TransportCtx)
    (server : Nat → HTTPResponse) (method urlPath : String)
    (hasResBody : Bool) (idx fuel : Nat)
    (h2 : (server idx).status / 100 ≠ 2) (h429 : (server idx).status ≠ 429) :
    ∃ e : HTTPError,
      MakeRequest ctx server method urlPath hasResBody idx (fuel + 1) =
        some (ReqResult.httpErr e, 1, []) ∧
      e.code = (server idx).status ∧
      e.contents = (server idx).body ∧
      ((ctx.unmarshalRespError (server idx).body).errCode ≠ "" →
        e.wrapped = some (ctx.unmarshalRespError (server idx).body)) ∧
      ((ctx.unmarshalRespError (server idx).body).errCode = "" →
        e.wrapped = none ∧
        e.message = "Failed to " ++ method ++ " JSON to " ++ urlPath ++ ": "
          ++ (server idx).body) := by
  by_cases hw : (ctx.unmarshalRespError (server idx).body).errCode = ""
  · refine ⟨⟨(server idx).body,
      "Failed to " ++ method ++ " JSON to " ++ urlPath ++ ": "
        ++ (server idx).body,
      (server idx).status, none⟩, ?_, rfl, rfl, ?_, ?_⟩
    · simp [MakeRequest, h2, h429, hw]
    · intro hne
      exact absurd hw hne
    · intro _
      exact ⟨rfl, rfl⟩
  · refine ⟨⟨(server idx).body,
      "Failed to " ++ method ++ " JSON to " ++ urlPath,
      (server idx).status, some (ctx.unmarshalRespError (server idx).body)⟩,
      ?_, rfl, rfl, ?_, ?_⟩
    · simp [MakeRequest, h2, h429, hw]
    · intro _
      rfl
    · intro h0
      exact absurd h0 hw

/-- Witness for C6 at a concrete 500 response with an unparseable body. -/
theorem C6_http_error_structure_witness :
    ∃ e : HTTPError,
      MakeRequest ctxSample server500 "GET" "/path" true 0 (2 + 1) =
        some (ReqResult.httpErr e, 1, []) ∧
      e.code = (server500 0).status ∧
      e.contents = (server500 0).body ∧
      ((ctxSample.unmarshalRespError (server500 0).body).errCode ≠ "" →
        e.wrapped = some (ctxSample.unmarshalRespError (server500 0).body)) ∧
      ((ctxSample.unmarshalRespError (server500 0).body).errCode = "" →
        e.wrapped = none ∧
        e.message = "Failed to " ++ "GET" ++ " JSON to " ++ "/path" ++ ": "
          ++ (server500 0).body) :=
  C6_http_error_structure ctxSample server500 "GET" "/path" true 0 2
    (by decide) (by decide)

/-- C9: on a 429 whose Retry-After header is handled, `MakeRequest`
sleeps, re-invokes itself, and discards whatever the recursive call
returned: the conclusion does not depend on `inner`, and the caller gets
a result decoded from the body of the original 429 response. -/
theorem C9_retry_result_discarded (ctx : TransportCtx)
    (server : Nat → HTTPResponse) (method urlPath : String) (idx fuel : Nat)
    (dur : Int) (inner : ReqResult) (calls : Nat) (sleeps : List Int)
    (h429 : (server idx).status = 429)
    (hhr : HandleRetry ctx (server idx).retryAfter defaultSleep = .ok dur)
    (hinner : MakeRequest ctx server method urlPath true (idx + 1) fuel =
      some (inner, calls, sleeps)) :
    MakeRequest ctx server method urlPath true idx (fuel + 1) =
      some (ReqResult.decodedBody (server idx).body, calls + 1,
        dur :: sleeps) := by
  simp [MakeRequest, h429, hhr, hinner]

/-- Witness for C9: the first 429 of `serverTwo429`; the retried call
eventually succeeds with body "okbody", yet the caller's result decodes
the 429 body "busy". -/
theorem C9_retry_result_discarded_witness :
    MakeRequest ctxSample serverTwo429 "GET" "/sync" true 0 (2 + 1) =
      some (ReqResult.decodedBody "busy", 2 + 1, [5000000000, 5000000000]) :=
  C9_retry_result_discarded ctxSample serverTwo429 "GET" "/sync" 0 2
    5000000000 (ReqResult.decodedBody "busy") 2 [5000000000] rfl rfl rfl

/-- C10: on a 429 whose non-empty Retry-After header parses neither as an
HTTP-date nor as an integer, `MakeRequest` returns the `HandleRetry`
error after a single HTTP call, with no sleep and no retry. -/
theorem C10_invalid_retry_after_aborts (ctx : TransportCtx)
    (server : Nat → HTTPResponse) (method urlPath : String)
    (hasResBody : Bool) (idx fuel : Nat)
    (h429 : (server idx).status = 429)
    (hra : (server idx).retryAfter ≠ "")
    (hdate : ctx.parseHTTPDate (server idx).retryAfter = none)
    (hint : ctx.atoi (server idx).retryAfter = none) :
    MakeRequest ctx server method urlPath hasResBody idx (fuel + 1) =
      some (ReqResult.retryErr "invalid retry-after data", 1, []) := by
  simp [MakeRequest, HandleRetry, h429, hra, hdate, hint]

/-- Witness for C10 at a concrete 429 with Retry-After "soon". -/
theorem C10_invalid_retry_after_aborts_witness :
    MakeRequest ctxSample server429Bad "GET" "/sync" true 0 (3 + 1) =
      some (ReqResult.retryErr "invalid retry-after data", 1, []) :=
  C10_invalid_retry_after_aborts ctxSample server429Bad "GET" "/sync" true 0 3
    rfl (by decide) rfl rfl

/-- C3 counterexample: against a server that answers 429 twice and then
2xx, `MakeRequest` performs three HTTP calls.  "Retries the same call
exactly once" would allow at most two calls in total before surfacing an
error, so the claim is false at this input. -/
theorem C3_counterexample_retry_not_once :
    (MakeRequest ctxSample serverTwo429 "GET" "/sync" true 0 10).map
        (fun r => r.2.1) = some 3 ∧
    ¬ (MakeRequest ctxSample serverTwo429 "GET" "/sync" true 0 10).map
        (fun r => r.2.1) = some 2 := by
  exact ⟨rfl, by decide⟩

/-- C3 amended: the 429 retry is unbounded — against a server that
persistently answers 429 (with the Retry-After header absent), the
`MakeRequest` call chain never completes: for every fuel bound it is
still running (no error is ever surfaced). -/
theorem C3_amended_unbounded_retry (ctx : TransportCtx)
    (server : Nat → HTTPResponse) (method urlPath : String)
    (hasResBody : Bool) (fuel idx : Nat)
    (h : ∀ i, (server i).status = 429 ∧ (server i).retryAfter = "") :
    MakeRequest ctx server method urlPath hasResBody idx fuel = none := by
  induction fuel generalizing idx with
  | zero => rfl
  | succ fuel ih =>
    simp [MakeRequest, HandleRetry, (h idx).1, (h idx).2, ih (idx + 1)]

/-- Witness for the amended C3: five calls into a persistent-429 server,
`MakeRequest` has still not returned. -/
theorem C3_amended_unbounded_retry_witness :
    MakeRequest ctxSample server429 "GET" "/sync" true 0 5 = none :=
  C3_amended_unbounded_retry ctxSample server429 "GET" "/sync" true 5 0
    (fun _ => ⟨rfl, rfl⟩)

end Gomatrix
